import Mathlib

/-!
Shallow embedding of the nexus typing-statistics engine and its CLI/GUI
dispatch layers (src/nexus/__main__.py and src/src/nexus/GUI.py).

The repository's source tree only ships the CLI and GUI layers; the
Freqlog engine (metadata store, banlist, merge, migration) lives in
modules that are not part of the source tree, so those operations are
modelled from the spec and marked as such in their doc comments.
-/

namespace Nexus

/-- Case sensitivity classes, from `nexus.Freqlog.Definitions.CaseSensitivity`
(referenced throughout `__main__.py` and `GUI.py`). -/
inductive CaseSensitivity where
  | SENSITIVE
  | FIRST_CHAR
  | INSENSITIVE
deriving DecidableEq, Repr

/-- Sort order enum, from `nexus.Freqlog.Definitions.Order`
(referenced by the `words`, `chords` and `banlist` subcommands). -/
inductive Order where
  | ASCENDING
  | DESCENDING
deriving DecidableEq, Repr

/-- Ban-data age policy for merges, from `nexus.Freqlog.Definitions.Age`. -/
inductive Age where
  | OLDER
  | NEWER
deriving DecidableEq, Repr

/-- Modelled from the spec: `WordMetadata` row of the Metadata Store
(word, frequency ≥ 0 before the first observation, average seconds per
character, last-used timestamp). Durations and timestamps are rationals. -/
structure WordMetadata where
  word : String
  frequency : Nat
  average_speed : ℚ
  last_used : ℚ
deriving DecidableEq, Repr

/-- Modelled from the spec: `ChordMetadata` row of the Metadata Store. -/
structure ChordMetadata where
  chord : String
  frequency : Nat
  last_used : ℚ
deriving DecidableEq, Repr

/-- Modelled from the spec: one banlist entry, `{word, case_class, date_added}`. -/
structure BanEntry where
  word : String
  case_class : CaseSensitivity
  date_added : ℚ
deriving DecidableEq, Repr

/-- Modelled from the spec: a whole persisted store — schema version header,
word table, chord table, and the (decrypted) banlist set. -/
structure Store where
  schema_version : Nat
  words : List WordMetadata
  chords : List ChordMetadata
  banlist : List BanEntry
deriving DecidableEq, Repr

/-- Python `str.lower()`, as the character-wise lowercase map. -/
def strLower (s : String) : String :=
  String.mk (s.data.map Char.toLower)

/-- Modelled from the spec: the key-folding induced by a case class —
SENSITIVE keeps the exact string, INSENSITIVE folds the whole string,
FIRST_CHAR keeps the case of the first character and folds the rest. -/
def caseFold : CaseSensitivity → String → String
  | .SENSITIVE, w => w
  | .INSENSITIVE, w => strLower w
  | .FIRST_CHAR, w =>
    match w.data with
    | [] => ""
    | c :: rest => String.mk (c :: rest.map Char.toLower)

/-- Modelled from the spec: the Metadata Store's update of a word row on a
`WordObservation` — `new_avg = (old_avg*old_freq + duration/len(word)) /
(old_freq+1)`, frequency incremented, last_used set to the observation time. -/
def applyWordObservation (m : WordMetadata) (duration : ℚ) (wordLen : Nat)
    (now : ℚ) : WordMetadata :=
  { m with
    frequency := m.frequency + 1
    average_speed :=
      (m.average_speed * (m.frequency : ℚ) + duration / (wordLen : ℚ))
        / ((m.frequency : ℚ) + 1)
    last_used := now }

/-- Modelled from the spec: the fresh row created by the upsert before its
first observation (frequency 0, average 0); applying the update formula once
then yields frequency 1 and average = duration/len, matching the upsert. -/
def freshWordMetadata (w : String) : WordMetadata :=
  ⟨w, 0, 0, 0⟩

/-- Folding a sequence of observations (duration, time) of the same word
into the store row, starting from a fresh row. -/
def applyObservations (w : String) (obs : List (ℚ × ℚ)) : WordMetadata :=
  obs.foldl (fun m o => applyWordObservation m o.1 w.length o.2)
    (freshWordMetadata w)

theorem applyObservations_invariant (w : String) (obs : List (ℚ × ℚ))
    (m : WordMetadata) :
    (obs.foldl (fun m o => applyWordObservation m o.1 w.length o.2) m).frequency
      = m.frequency + obs.length ∧
    (obs.foldl (fun m o => applyWordObservation m o.1 w.length o.2) m).average_speed
        * ((m.frequency : ℚ) + (obs.length : ℚ))
      = m.average_speed * (m.frequency : ℚ)
        + ((obs.map Prod.fst).sum / (w.length : ℚ)) := by
  induction obs generalizing m with
  | nil => simp
  | cons o rest ih =>
    have h := ih (applyWordObservation m o.1 w.length o.2)
    constructor
    · rw [List.foldl_cons, h.1]
      simp [applyWordObservation]
      omega
    · rw [List.foldl_cons]
      have hfreq : ((applyWordObservation m o.1 w.length o.2).frequency : ℚ)
          = (m.frequency : ℚ) + 1 := by
        simp [applyWordObservation]
      have hne : ((m.frequency : ℚ) + 1) ≠ 0 := by
        positivity
      have havg : (applyWordObservation m o.1 w.length o.2).average_speed
            * ((m.frequency : ℚ) + 1)
          = m.average_speed * (m.frequency : ℚ) + o.1 / (w.length : ℚ) := by
        simp only [applyWordObservation]
        field_simp
      have h2 := h.2
      rw [hfreq] at h2
      have hcast : ((m.frequency : ℚ) + ((rest.length + 1 : Nat) : ℚ))
          = ((m.frequency : ℚ) + 1) + (rest.length : ℚ) := by
        push_cast
        ring
      rw [List.length_cons, hcast, h2, havg, List.map_cons, List.sum_cons,
        add_div]
      ring

/-- C1: after N applications of observations of the same word, the stored
frequency equals N and the stored average_speed equals the streaming mean of
per-character durations, i.e. the total duration divided by the word length
divided by N; in particular two observations of the 3-character word "cat"
with durations 0.6 s and 0.3 s yield average_speed 0.15 s/char. -/
theorem word_stats_streaming_mean (w : String) (obs : List (ℚ × ℚ)) :
    (applyObservations w obs).frequency = obs.length ∧
    (applyObservations w obs).average_speed
      = ((obs.map Prod.fst).sum / (w.length : ℚ)) / (obs.length : ℚ) ∧
    (applyObservations "cat" [(3/5, 1), (3/10, 2)]).average_speed = 3/20 := by
  have h := applyObservations_invariant w obs (freshWordMetadata w)
  have hfreq : (applyObservations w obs).frequency = obs.length := by
    simpa [applyObservations, freshWordMetadata] using h.1
  have hex : (applyObservations "cat" [(3/5, 1), (3/10, 2)]).average_speed
      = 3/20 := by
    have h3 : "cat".length = 3 := rfl
    simp [applyObservations, applyWordObservation, freshWordMetadata, h3]
    norm_num
  refine ⟨hfreq, ?_, hex⟩
  have h2 : (applyObservations w obs).average_speed * (obs.length : ℚ)
      = (obs.map Prod.fst).sum / (w.length : ℚ) := by
    simpa [applyObservations, freshWordMetadata] using h.2
  rcases Nat.eq_zero_or_pos obs.length with hz | hp
  · rcases List.eq_nil_of_length_eq_zero hz with rfl
    simp [applyObservations, freshWordMetadata]
  · have hne : (obs.length : ℚ) ≠ 0 := by
      exact_mod_cast Nat.pos_iff_ne_zero.mp hp
    rw [eq_div_iff hne]
    exact h2

/-! ## CLI `--num` handling (C2) -/

/-- Modelled from the spec: `Defaults.DEFAULT_NUM_WORDS_CLI` from
`nexus.Freqlog.Definitions` (not in the source tree). The spec fixes no
value; the claims depend only on its being a fixed nonzero bound, and 10
is used as a representative value here. -/
def DEFAULT_NUM_WORDS_CLI : Int := 10

/-- Help text of the `--num` argument (`num_arg`, `__main__.py` lines
54–55), with the default interpolated. -/
def numArgHelp : String :=
  "Number of words to return (0 for all), default 10"

/-- The validation of `args.num` in `main` (`__main__.py` lines 239–249):
`if args.num and args.num < 0` — Python truthiness, so 0 skips the check. -/
def numValidationExit (argNum : Option Int) : Int :=
  match argNum with
  | some n => if n ≠ 0 ∧ n < 0 then 3 else 0
  | none => 0

/-- The effective entry count computed in `main` (`__main__.py` lines
338–341): `num = args.num if args.num else Defaults.DEFAULT_NUM_WORDS_CLI`
— Python truthiness, so both a missing argument and an explicit 0 map to
the default. -/
def effectiveNum (argNum : Option Int) : Int :=
  match argNum with
  | some n => if n ≠ 0 then n else DEFAULT_NUM_WORDS_CLI
  | none => DEFAULT_NUM_WORDS_CLI

/-- Modelled from the spec: the limit semantics of the list operation of
the Metadata Store — limit 0 means unlimited, a positive limit truncates. -/
def listLimit (limit : Nat) (xs : List α) : List α :=
  if limit = 0 then xs else xs.take limit

/-- C2 evidence: an explicit `-n 0` passes validation, but the CLI then
replaces it by the default bound (10) instead of the unlimited 0 that its
own help text ("0 for all") and the store contract promise: on an
11-element table the listing bounded by the effective number has only 10
entries, while limit 0 yields all 11. -/
theorem num_zero_maps_to_default :
    numValidationExit (some 0) = 0 ∧
    effectiveNum (some 0) = DEFAULT_NUM_WORDS_CLI ∧
    effectiveNum (some 0) ≠ 0 ∧
    numArgHelp = "Number of words to return (0 for all), default 10" ∧
    listLimit 0 (List.range 11) = List.range 11 ∧
    (listLimit (effectiveNum (some 0)).toNat (List.range 11)).length = 10 := by
  refine ⟨rfl, rfl, by decide, rfl, rfl, by decide⟩

/-! ## Sort-order defaults of the `words` and `chords` subcommands (C9) -/

/-- The reverse flag the CLI passes to `list_words` / `list_logged_chords`
/ the CSV exports: `args.order == Order.DESCENDING` (`__main__.py` lines
387, 390, 415, 418). -/
def reverseFlag (o : Order) : Bool := o == Order.DESCENDING

/-- `parser_words` order default (`__main__.py` line 99): `Order.DESCENDING`. -/
def wordsDefaultOrder : Order := Order.DESCENDING

/-- `parser_chords` order default (`__main__.py` line 111): `Order.ASCENDING`. -/
def chordsDefaultOrder : Order := Order.ASCENDING

/-- Help text of the `--order` argument of `chords` (`__main__.py` line 111). -/
def chordsOrderHelp : String := "Order (default: DESCENDING)"

/-- C9: without an explicit `--order`, the chords listing and export are
requested in ascending order — the reverse flag is false because the
default `Order.ASCENDING` is not `Order.DESCENDING` — although the help
text of the command states DESCENDING as the default and the words
command does default to descending. -/
theorem chords_default_order_ascending :
    chordsDefaultOrder = Order.ASCENDING ∧
    reverseFlag chordsDefaultOrder = false ∧
    chordsOrderHelp = "Order (default: DESCENDING)" ∧
    wordsDefaultOrder = Order.DESCENDING ∧
    reverseFlag wordsDefaultOrder = true :=
  ⟨rfl, rfl, rfl, rfl, rfl⟩

/-! ## `startlog` configuration validation (C5) -/

/-- The configuration arguments of the `startlog` subcommand. -/
structure StartlogConfig where
  new_word_threshold : ℚ
  chord_char_threshold : Int
  allowed_chars : List Char
  allowed_first_chars : List Char
deriving DecidableEq, Repr

/-- The validation block of `main` for `startlog` (`__main__.py` lines
216–237): `exit_code` starts at 0, the backend check sets 4, and each of
the five configuration checks overwrites it with 3, in source order. -/
def startlogValidationExit (backendOk : Bool) (c : StartlogConfig) : Int :=
  let e : Int := 0
  let e := if backendOk then e else 4
  let e := if c.new_word_threshold ≤ 0 then 3 else e
  let e := if c.chord_char_threshold ≤ 0 then 3 else e
  let e := if c.allowed_chars.length = 0 then 3 else e
  let e := if c.allowed_first_chars.length = 0 then 3 else e
  if c.allowed_first_chars.any (fun ch => !(c.allowed_chars.contains ch)) then 3
  else e

/-- Outcome of running `startlog` up to the point where the `Freqlog`
store object would be constructed. -/
inductive StartlogOutcome where
  | exited (code : Int)
  | storeCreated
deriving DecidableEq, Repr

/-- The control flow of `main` around `startlog`: `sys.exit(exit_code)` at
lines 320–321 fires before the `Freqlog(...)` construction at line 346
whenever validation failed, so no store object is created and no state is
changed. -/
def startlogRun (backendOk : Bool) (c : StartlogConfig) : StartlogOutcome :=
  let e := startlogValidationExit backendOk c
  if e ≠ 0 then .exited e else .storeCreated

/-- C5: an invalid configuration — non-positive new-word threshold,
non-positive chord-char threshold, empty allowed chars, empty allowed
first chars, or allowed first chars not a subset of allowed chars — makes
`startlog` exit with code 3 before any store object is created. -/
theorem invalid_config_rejected_before_store (backendOk : Bool)
    (c : StartlogConfig)
    (h : c.new_word_threshold ≤ 0 ∨ c.chord_char_threshold ≤ 0 ∨
      c.allowed_chars.length = 0 ∨ c.allowed_first_chars.length = 0 ∨
      c.allowed_first_chars.any (fun ch => !(c.allowed_chars.contains ch))
        = true) :
    startlogRun backendOk c = .exited 3 := by
  have he : startlogValidationExit backendOk c = 3 := by
    simp only [startlogValidationExit]
    rcases h with h1 | h1 | h1 | h1 | h1 <;> split_ifs <;> simp_all
  simp [startlogRun, he]

/-- A concrete invalid configuration: new-word threshold 0. -/
def invalidConfigExample : StartlogConfig :=
  ⟨0, 30, ['a', 'b'], ['a']⟩

theorem invalid_config_rejected_before_store_witness :
    invalidConfigExample.new_word_threshold ≤ 0 ∧
    startlogRun true invalidConfigExample = .exited 3 :=
  ⟨le_refl 0,
   invalid_config_rejected_before_store true invalidConfigExample
     (Or.inl (le_refl 0))⟩

/-! ## Schema-upgrade confirmation (C6) -/

/-- Whether the interactive answer accepts the upgrade: the lowered input
equals "y" (`__main__.py` lines 259–264); `none` stands for a keyboard
interrupt, which also cancels. -/
def choiceAccepts : Option String → Bool
  | none => false
  | some s => strLower s == "y"

/-- Decision of the upgrade prompt. -/
inductive UpgradeDecision where
  | proceed
  | abort (code : Int)
deriving DecidableEq, Repr

/-- `_prompt_for_upgrade` (`__main__.py` lines 251–266): with `--upgrade`
given, proceed without asking; otherwise ask, and any answer other than
"y" (or an interrupt) exits with code 8. -/
def promptForUpgrade (upgradeFlag : Bool) (choice : Option String) :
    UpgradeDecision :=
  if upgradeFlag then .proceed
  else if choiceAccepts choice then .proceed
  else .abort 8

/-- Result of opening a store through the migration path. -/
inductive OpenResult where
  | opened
  | aborted (code : Int)
  | incompatible
deriving DecidableEq, Repr

/-- Modelled from the spec: the all-or-nothing migration of a store to the
current schema version; the observable effect embedded here is the header
version change. -/
def migrate (current : Nat) (s : Store) : Store :=
  { s with schema_version := current }

/-- Modelled from the spec: opening a store compares the persisted schema
version with the current one; on an older store the caller-supplied
confirmation (the CLI passes `_prompt_for_upgrade`) runs before anything
is mutated, and a refusal aborts with the store unchanged; a newer store
is a fatal incompatibility. -/
def openStoreWithMigration (current : Nat) (s : Store) (upgradeFlag : Bool)
    (choice : Option String) : OpenResult × Store :=
  if s.schema_version = current then (.opened, s)
  else if current < s.schema_version then (.incompatible, s)
  else
    match promptForUpgrade upgradeFlag choice with
    | .abort code => (.aborted code, s)
    | .proceed => (.opened, migrate current s)

/-- C6: when the persisted schema version is older than the current one,
refusing the confirmation (without the `--upgrade` flag) aborts with exit
code 8 and the store unchanged; with `--upgrade` the migration proceeds
without consulting the interactive answer; and a store already at the
current version is opened untouched with no prompt. -/
theorem upgrade_confirmation_gate (current : Nat) (s : Store) (flag : Bool)
    (choice : Option String) :
    (s.schema_version < current → flag = false →
      choiceAccepts choice = false →
      openStoreWithMigration current s flag choice = (.aborted 8, s)) ∧
    (s.schema_version < current → flag = true →
      openStoreWithMigration current s flag choice
        = (.opened, migrate current s)) ∧
    (flag = true →
      openStoreWithMigration current s flag choice
        = openStoreWithMigration current s flag none) ∧
    (s.schema_version = current →
      openStoreWithMigration current s flag choice = (.opened, s)) := by
  refine ⟨?_, ?_, ?_, ?_⟩
  · intro hlt hf hc
    have hne : s.schema_version ≠ current := Nat.ne_of_lt hlt
    have hnlt : ¬ current < s.schema_version := Nat.not_lt.mpr hlt.le
    simp [openStoreWithMigration, hne, hnlt, promptForUpgrade, hf, hc]
  · intro hlt hf
    have hne : s.schema_version ≠ current := Nat.ne_of_lt hlt
    have hnlt : ¬ current < s.schema_version := Nat.not_lt.mpr hlt.le
    simp [openStoreWithMigration, hne, hnlt, promptForUpgrade, hf]
  · intro hf
    simp [openStoreWithMigration, promptForUpgrade, hf]
  · intro heq
    simp [openStoreWithMigration, heq]

theorem upgrade_confirmation_gate_witness :
    (Store.mk 1 [] [] []).schema_version < 2 ∧
    choiceAccepts (some "n") = false ∧
    openStoreWithMigration 2 (Store.mk 1 [] [] []) false (some "n")
      = (.aborted 8, Store.mk 1 [] [] []) := by
  refine ⟨by decide, by decide, ?_⟩
  exact (upgrade_confirmation_gate 2 (Store.mk 1 [] [] []) false
    (some "n")).1 (by decide) rfl (by decide)

/-! ## New-banlist-password prompt (C7) -/

/-- One round of interaction with `_prompt_for_password(new=True)`: the
entered password, the answer to the weak-password continue prompt (only
consulted when the password is short), and the confirmation entry. -/
structure PwRound where
  password : String
  weakContinue : String
  confirm : String
deriving DecidableEq, Repr

/-- `_prompt_for_password` with `new=True` (`__main__.py` lines 277–286):
loop — read a password; if it is shorter than 8 characters, log a warning
and ask whether to continue, re-asking from scratch unless the lowered
answer is "y"; then accept the password if the confirmation entry matches,
else loop. The returned flag records whether the accepted password had
triggered the weak-password warning. -/
def promptNewPassword : List PwRound → Option (String × Bool)
  | [] => none
  | r :: rest =>
    if r.password.length < 8 then
      if strLower r.weakContinue = "y" then
        if r.confirm = r.password then some (r.password, true)
        else promptNewPassword rest
      else promptNewPassword rest
    else
      if r.confirm = r.password then some (r.password, false)
      else promptNewPassword rest

/-- C7: a new banlist password shorter than 8 characters is permitted —
after the warning, answering "y" and confirming it returns exactly that
password, with the warning having been surfaced — and any password the
prompt returns is one the user entered verbatim (never silently
upgraded), with every accepted weak password having been warned about. -/
theorem weak_password_warned_not_rejected :
    (∀ r : PwRound, r.password.length < 8 → strLower r.weakContinue = "y" →
      r.confirm = r.password →
      promptNewPassword [r] = some (r.password, true)) ∧
    (∀ (rounds : List PwRound) (p : String) (warned : Bool),
      promptNewPassword rounds = some (p, warned) →
      (∃ r ∈ rounds, r.password = p) ∧ (p.length < 8 → warned = true)) := by
  constructor
  · intro r h1 h2 h3
    simp [promptNewPassword, h1, h2, h3]
  · intro rounds
    induction rounds with
    | nil =>
      intro p w h
      simp [promptNewPassword] at h
    | cons r rest ih =>
      intro p w h
      simp only [promptNewPassword] at h
      split_ifs at h with h1 h2 h3 h4
      · have hpw := Prod.ext_iff.mp (Option.some.inj h)
        exact ⟨⟨r, List.mem_cons_self r rest, hpw.1⟩, fun _ => hpw.2.symm⟩
      · obtain ⟨⟨r2, hr2, hp2⟩, hw2⟩ := ih p w h
        exact ⟨⟨r2, List.mem_cons_of_mem r hr2, hp2⟩, hw2⟩
      · obtain ⟨⟨r2, hr2, hp2⟩, hw2⟩ := ih p w h
        exact ⟨⟨r2, List.mem_cons_of_mem r hr2, hp2⟩, hw2⟩
      · have hpw := Prod.ext_iff.mp (Option.some.inj h)
        have hp1 : r.password = p := hpw.1
        refine ⟨⟨r, List.mem_cons_self r rest, hp1⟩, fun hlt => ?_⟩
        apply absurd _ h1
        rw [hp1]
        exact hlt
      · obtain ⟨⟨r2, hr2, hp2⟩, hw2⟩ := ih p w h
        exact ⟨⟨r2, List.mem_cons_of_mem r hr2, hp2⟩, hw2⟩

theorem weak_password_warned_not_rejected_witness :
    ("short".length < 8 ∧ strLower "y" = "y") ∧
    promptNewPassword [PwRound.mk "short" "y" "short"]
      = some ("short", true) ∧
    (∃ r ∈ [PwRound.mk "short" "y" "short"], r.password = "short") := by
  have h2 := weak_password_warned_not_rejected.1
    (PwRound.mk "short" "y" "short") (by decide) (by decide) rfl
  exact ⟨⟨by decide, by decide⟩, h2,
    (weak_password_warned_not_rejected.2
      [PwRound.mk "short" "y" "short"] "short" true h2).1⟩

/-! ## Banlist ban/unban (C3) -/

/-- Modelled from the spec: membership of (word, case) in the decrypted
banlist. -/
def is_banned (s : Store) (w : String) (c : CaseSensitivity) : Bool :=
  s.banlist.any (fun e => e.word == w && e.case_class == c)

/-- Modelled from the spec: `ban(word, case)` — false and no change when
already banned (AlreadyInStateError reported as false, not an error);
otherwise the entry is recorded and matching word rows under the case
policy are purged. -/
def ban_word (s : Store) (w : String) (c : CaseSensitivity) (t : ℚ) :
    Bool × Store :=
  if is_banned s w c then (false, s)
  else
    (true,
     { s with
       banlist := s.banlist ++ [⟨w, c, t⟩]
       words := s.words.filter
         (fun m => !(caseFold c m.word == caseFold c w)) })

/-- Modelled from the spec: `unban(word, case)` — false and no change when
the word is not banned. -/
def unban_word (s : Store) (w : String) (c : CaseSensitivity) :
    Bool × Store :=
  if is_banned s w c then
    (true,
     { s with
       banlist := s.banlist.filter
         (fun e => !(e.word == w && e.case_class == c)) })
  else (false, s)

/-- The `banword` CLI loop (`__main__.py` lines 365–368): a false return
from any ban sets exit code 6. -/
def banwordCLI (s : Store) (ws : List String) (c : CaseSensitivity)
    (t : ℚ) : Int × Store :=
  ws.foldl (fun acc w =>
    let r := ban_word acc.2 w c t
    (if r.1 then acc.1 else 6, r.2)) (0, s)

/-- The `unbanword` CLI loop (`__main__.py` lines 369–372). -/
def unbanwordCLI (s : Store) (ws : List String) (c : CaseSensitivity) :
    Int × Store :=
  ws.foldl (fun acc w =>
    let r := unban_word acc.2 w c
    (if r.1 then acc.1 else 6, r.2)) (0, s)

theorem is_banned_after_ban (s : Store) (w : String) (c : CaseSensitivity)
    (t : ℚ) : is_banned (ban_word s w c t).2 w c = true := by
  by_cases hb : is_banned s w c
  · simp [ban_word, hb]
  · unfold ban_word
    rw [if_neg hb]
    simp [is_banned]

/-- C3: a second ban of an already-banned word returns false and changes
neither the banlist nor the word rows; an unban of a word that is not
banned returns false and changes nothing; the CLI reports the false
outcome of either loop as exit code 6. -/
theorem ban_unban_idempotent (s : Store) (w : String) (c : CaseSensitivity)
    (t t2 : ℚ) :
    (ban_word (ban_word s w c t).2 w c t2
      = (false, (ban_word s w c t).2)) ∧
    (is_banned s w c = false → unban_word s w c = (false, s)) ∧
    (is_banned s w c = true → ban_word s w c t = (false, s)) ∧
    (is_banned s w c = true → (banwordCLI s [w] c t).1 = 6) ∧
    (is_banned s w c = false → (unbanwordCLI s [w] c).1 = 6) := by
  have hban : ∀ (x : Store) (u : ℚ), is_banned x w c = true →
      ban_word x w c u = (false, x) := by
    intro x u h
    unfold ban_word
    rw [if_pos h]
  have hunban : ∀ x : Store, is_banned x w c = false →
      unban_word x w c = (false, x) := by
    intro x h
    unfold unban_word
    rw [if_neg (by simp [h])]
  refine ⟨hban _ t2 (is_banned_after_ban s w c t),
    fun h => hunban s h, fun h => hban s t h, fun h => ?_, fun h => ?_⟩
  · simp [banwordCLI, hban s t h]
  · simp [unbanwordCLI, hunban s h]

theorem ban_unban_idempotent_witness :
    is_banned (Store.mk 1 [] [] []) "cat" CaseSensitivity.INSENSITIVE
      = false ∧
    unban_word (Store.mk 1 [] [] []) "cat" CaseSensitivity.INSENSITIVE
      = (false, Store.mk 1 [] [] []) ∧
    ban_word
        (ban_word (Store.mk 1 [] [] []) "cat"
          CaseSensitivity.INSENSITIVE 0).2
        "cat" CaseSensitivity.INSENSITIVE 1
      = (false,
         (ban_word (Store.mk 1 [] [] []) "cat"
           CaseSensitivity.INSENSITIVE 0).2) := by
  refine ⟨by decide, ?_, ?_⟩
  · exact (ban_unban_idempotent (Store.mk 1 [] [] []) "cat"
      CaseSensitivity.INSENSITIVE 0 1).2.1 (by decide)
  · exact (ban_unban_idempotent (Store.mk 1 [] [] []) "cat"
      CaseSensitivity.INSENSITIVE 0 1).1

/-! ## Merge engine (C4) -/

/-- Modelled from the spec: merging two word rows — frequencies summed,
average speed recomputed as the frequency-weighted mean, last_used the
later of the two. -/
def mergeWordRow (x y : WordMetadata) : WordMetadata :=
  { word := x.word
    frequency := x.frequency + y.frequency
    average_speed :=
      (x.average_speed * (x.frequency : ℚ)
        + y.average_speed * (y.frequency : ℚ))
        / ((x.frequency : ℚ) + (y.frequency : ℚ))
    last_used := max x.last_used y.last_used }

/-- Modelled from the spec: union of the two word tables, merging rows
that share a word. -/
def mergeWordLists (a b : List WordMetadata) : List WordMetadata :=
  (a.map (fun m =>
    match b.find? (fun n => n.word == m.word) with
    | some n => mergeWordRow m n
    | none => m))
  ++ b.filter (fun n => !(a.any (fun m => m.word == n.word)))

/-- Modelled from the spec: merging two chord rows. -/
def mergeChordRow (x y : ChordMetadata) : ChordMetadata :=
  { chord := x.chord
    frequency := x.frequency + y.frequency
    last_used := max x.last_used y.last_used }

/-- Modelled from the spec: union of the two chord tables. -/
def mergeChordLists (a b : List ChordMetadata) : List ChordMetadata :=
  (a.map (fun m =>
    match b.find? (fun n => n.chord == m.chord) with
    | some n => mergeChordRow m n
    | none => m))
  ++ b.filter (fun n => !(a.any (fun m => m.chord == n.chord)))

/-- Modelled from the spec: on a ban-date conflict for the same
(word, case), keep the entry selected by the age policy. -/
def mergeBanEntry (p : Age) (x y : BanEntry) : BanEntry :=
  match p with
  | .OLDER => if x.date_added ≤ y.date_added then x else y
  | .NEWER => if x.date_added ≤ y.date_added then y else x

/-- Modelled from the spec: union of the two banlists with the age policy
applied to conflicts. -/
def mergeBanlists (p : Age) (a b : List BanEntry) : List BanEntry :=
  (a.map (fun e =>
    match b.find? (fun f =>
      f.word == e.word && f.case_class == e.case_class) with
    | some f => mergeBanEntry p e f
    | none => e))
  ++ b.filter (fun f =>
    !(a.any (fun e => e.word == f.word && e.case_class == f.case_class)))

/-- Modelled from the spec: re-applying the ban invariant after the union
— any word row matching a banlist entry under its case policy is purged. -/
def purgeBanned (s : Store) : Store :=
  { s with words := s.words.filter (fun m =>
      !(s.banlist.any (fun e =>
        caseFold e.case_class m.word == caseFold e.case_class e.word))) }

/-- Modelled from the spec: `merge_backends` producing the destination
store from two opened sources. -/
def merge_backends (s1 s2 : Store) (p : Age) : Store :=
  purgeBanned
    { schema_version := s1.schema_version
      words := mergeWordLists s1.words s2.words
      chords := mergeChordLists s1.chords s2.chords
      banlist := mergeBanlists p s1.banlist s2.banlist }

/-- The `mergedb` CLI path (`__main__.py` lines 293–310): a source that
fails to open or decrypt (modelled as `none`) raises inside the `try`
block, the handler sets exit code 7, and the destination — modelled as
its prior contents — is never written. -/
def mergedbCLI (src1 src2 : Option Store) (p : Age)
    (dstBefore : Option Store) : Int × Option Store :=
  match src1, src2 with
  | some a, some b => (0, some (merge_backends a b p))
  | _, _ => (7, dstBefore)

/-- C4: if either source database fails to open or its banlist fails to
decrypt, the whole merge fails with exit code 7 and the destination is
left exactly as it was. -/
theorem merge_source_failure_leaves_destination (src1 src2 : Option Store)
    (p : Age) (dst : Option Store) (h : src1 = none ∨ src2 = none) :
    mergedbCLI src1 src2 p dst = (7, dst) := by
  rcases h with rfl | rfl
  · cases src2 <;> rfl
  · cases src1 <;> rfl

theorem merge_source_failure_leaves_destination_witness :
    ((none : Option Store) = none ∨
      (some (Store.mk 1 [] [] []) : Option Store) = none) ∧
    mergedbCLI none (some (Store.mk 1 [] [] [])) Age.OLDER
        (some (Store.mk 2 [] [] []))
      = (7, some (Store.mk 2 [] [] [])) :=
  ⟨Or.inl rfl,
   merge_source_failure_leaves_destination none
     (some (Store.mk 1 [] [] [])) Age.OLDER
     (some (Store.mk 2 [] [] [])) (Or.inl rfl)⟩

/-! ## Not-found outcomes (C8) -/

/-- Modelled from the spec: `get(word, case)` point lookup — `none`
(not an error) when absent. -/
def get_word_metadata (s : Store) (w : String) (c : CaseSensitivity) :
    Option WordMetadata :=
  s.words.find? (fun m => caseFold c m.word == caseFold c w)

/-- Modelled from the spec: `delete(word, case)` — reports found/not-found
as a boolean, removing the matching rows when found. -/
def delete_word (s : Store) (w : String) (c : CaseSensitivity) :
    Bool × Store :=
  if s.words.any (fun m => caseFold c m.word == caseFold c w) then
    (true,
     { s with
       words := s.words.filter
         (fun m => !(caseFold c m.word == caseFold c w)) })
  else (false, s)

/-- Modelled from the spec: `get_chord(chord)` point lookup. -/
def get_chord_metadata (s : Store) (ch : String) : Option ChordMetadata :=
  s.chords.find? (fun m => m.chord == ch)

/-- Modelled from the spec: `delete_chord(chord)`. -/
def delete_logged_chord (s : Store) (ch : String) : Bool × Store :=
  if s.chords.any (fun m => m.chord == ch) then
    (true, { s with chords := s.chords.filter (fun m => !(m.chord == ch)) })
  else (false, s)

/-- The `delword` CLI loop (`__main__.py` lines 373–377): a false return
prints a not-found message and sets exit code 5. -/
def delwordCLI (s : Store) (ws : List String) (c : CaseSensitivity) :
    Int × Store :=
  ws.foldl (fun acc w =>
    let r := delete_word acc.2 w c
    (if r.1 then acc.1 else 5, r.2)) (0, s)

/-- The `delchordentry` CLI loop (`__main__.py` lines 378–383). -/
def delchordCLI (s : Store) (chs : List String) : Int × Store :=
  chs.foldl (fun acc ch =>
    let r := delete_logged_chord acc.2 ch
    (if r.1 then acc.1 else 5, r.2)) (0, s)

/-- C8: when the target word or chord is absent, the lookups return `none`
and the deletes return false leaving the store untouched — a returned
outcome, not an exception — and the CLI loops report it as exit code 5. -/
theorem absent_target_not_found (s : Store) (w ch : String)
    (c : CaseSensitivity)
    (hw : s.words.all (fun m => !(caseFold c m.word == caseFold c w))
      = true)
    (hc : s.chords.all (fun m => !(m.chord == ch)) = true) :
    get_word_metadata s w c = none ∧
    delete_word s w c = (false, s) ∧
    (delwordCLI s [w] c).1 = 5 ∧
    get_chord_metadata s ch = none ∧
    delete_logged_chord s ch = (false, s) ∧
    (delchordCLI s [ch]).1 = 5 := by
  have hw2 : ∀ m ∈ s.words,
      (caseFold c m.word == caseFold c w) = false := by
    intro m hm
    simpa using List.all_eq_true.mp hw m hm
  have hc2 : ∀ m ∈ s.chords, (m.chord == ch) = false := by
    intro m hm
    simpa using List.all_eq_true.mp hc m hm
  have hwany : s.words.any
      (fun m => caseFold c m.word == caseFold c w) = false := by
    rw [List.any_eq_false]
    intro m hm
    simp [hw2 m hm]
  have hcany : s.chords.any (fun m => m.chord == ch) = false := by
    rw [List.any_eq_false]
    intro m hm
    simp [hc2 m hm]
  have hdw : delete_word s w c = (false, s) := by
    unfold delete_word
    rw [if_neg (by simp [hwany])]
  have hdc : delete_logged_chord s ch = (false, s) := by
    unfold delete_logged_chord
    rw [if_neg (by simp [hcany])]
  refine ⟨?_, hdw, ?_, ?_, hdc, ?_⟩
  · unfold get_word_metadata
    rw [List.find?_eq_none]
    intro m hm
    simp [hw2 m hm]
  · simp [delwordCLI, hdw]
  · unfold get_chord_metadata
    rw [List.find?_eq_none]
    intro m hm
    simp [hc2 m hm]
  · simp [delchordCLI, hdc]

theorem absent_target_not_found_witness :
    get_word_metadata (Store.mk 1 [] [] []) "cat"
      CaseSensitivity.SENSITIVE = none ∧
    delete_word (Store.mk 1 [] [] []) "cat" CaseSensitivity.SENSITIVE
      = (false, Store.mk 1 [] [] []) ∧
    (delchordCLI (Store.mk 1 [] [] []) ["xy"]).1 = 5 := by
  have h := absent_target_not_found (Store.mk 1 [] [] []) "cat" "xy"
    CaseSensitivity.SENSITIVE (by decide) (by decide)
  exact ⟨h.1, h.2.1, h.2.2.2.2.2⟩

/-! ## GUI banlist dialog (C10) -/

/-- One displayed row of the banlist table: the word text (column 0) and
the case label (column 2). -/
structure BanRow where
  word : String
  label : String
deriving DecidableEq, Repr

/-- Modelled from the spec: `list_banned_words()` as consumed by the GUI —
the pair of the entries banned case-sensitively and the entries banned
under a folding class (FIRST_CHAR or INSENSITIVE). -/
def list_banned_words_pair (s : Store) : List BanEntry × List BanEntry :=
  (s.banlist.filter (fun e => e.case_class == CaseSensitivity.SENSITIVE),
   s.banlist.filter
     (fun e => !(e.case_class == CaseSensitivity.SENSITIVE)))

/-- `_refresh_banlist` (`GUI.py` lines 307–323): rows of the first list
are labelled "Sensitive", rows of the second list "Insensitive", appended
in that order. -/
def guiBanlistRows (s : Store) : List BanRow :=
  (list_banned_words_pair s).1.map (fun e => ⟨e.word, "Sensitive"⟩)
    ++ (list_banned_words_pair s).2.map (fun e => ⟨e.word, "Insensitive"⟩)

/-- `remove_banword` (`GUI.py` lines 348–361): the unban policy is
SENSITIVE exactly when the label text of the selected row is "Sensitive",
INSENSITIVE otherwise. -/
def unbanCaseOfLabel (label : String) : CaseSensitivity :=
  if label = "Sensitive" then CaseSensitivity.SENSITIVE
  else CaseSensitivity.INSENSITIVE

/-- C10: every displayed banlist row is labelled "Sensitive" or
"Insensitive" only, the unban policy derived from a row label is never
FIRST_CHAR, a word banned under FIRST_CHAR is displayed with the label
"Insensitive", and that label maps to the INSENSITIVE unban policy. -/
theorem banlist_gui_labels (s : Store) :
    (∀ row ∈ guiBanlistRows s,
      row.label = "Sensitive" ∨ row.label = "Insensitive") ∧
    (∀ row ∈ guiBanlistRows s,
      unbanCaseOfLabel row.label ≠ CaseSensitivity.FIRST_CHAR) ∧
    (∀ e ∈ s.banlist, e.case_class = CaseSensitivity.FIRST_CHAR →
      BanRow.mk e.word "Insensitive" ∈ guiBanlistRows s) ∧
    unbanCaseOfLabel "Sensitive" = CaseSensitivity.SENSITIVE ∧
    unbanCaseOfLabel "Insensitive" = CaseSensitivity.INSENSITIVE := by
  refine ⟨?_, ?_, ?_, by decide, by decide⟩
  · intro row hr
    simp only [guiBanlistRows] at hr
    rcases List.mem_append.mp hr with h | h
    · obtain ⟨e, he1, he⟩ := List.mem_map.mp h
      left
      rw [← he]
    · obtain ⟨e, he1, he⟩ := List.mem_map.mp h
      right
      rw [← he]
  · intro row hr
    simp only [guiBanlistRows] at hr
    rcases List.mem_append.mp hr with h | h <;>
      obtain ⟨e, he1, he⟩ := List.mem_map.mp h
    · rw [← he]
      exact (by decide :
        unbanCaseOfLabel "Sensitive" ≠ CaseSensitivity.FIRST_CHAR)
    · rw [← he]
      exact (by decide :
        unbanCaseOfLabel "Insensitive" ≠ CaseSensitivity.FIRST_CHAR)
  · intro e he hfc
    simp only [guiBanlistRows, list_banned_words_pair]
    apply List.mem_append.mpr
    right
    apply List.mem_map.mpr
    refine ⟨e, ?_, rfl⟩
    apply List.mem_filter.mpr
    refine ⟨he, ?_⟩
    simp [hfc]

theorem banlist_gui_labels_witness :
    BanEntry.mk "Cat" CaseSensitivity.FIRST_CHAR 0 ∈
      (Store.mk 1 [] [] [BanEntry.mk "Cat" CaseSensitivity.FIRST_CHAR 0]
        ).banlist ∧
    BanRow.mk "Cat" "Insensitive" ∈ guiBanlistRows
      (Store.mk 1 [] [] [BanEntry.mk "Cat" CaseSensitivity.FIRST_CHAR 0]) := by
  refine ⟨by decide, ?_⟩
  exact (banlist_gui_labels
      (Store.mk 1 [] [] [BanEntry.mk "Cat" CaseSensitivity.FIRST_CHAR 0])
    ).2.2.1 (BanEntry.mk "Cat" CaseSensitivity.FIRST_CHAR 0)
    (by decide) rfl

end Nexus
